import Mathlib

/-!
Verification of the xknx DPT transcoder core against its specification.

Shallow embedding of `xknx/dpt/dpt.py` and `xknx/dpt/dpt_10.py`:
payloads are modelled as plain lists of naturals (array payload) or a
single natural (binary payload); Python exceptions become explicit
error values in `Except`; CPython `time.struct_time` becomes a record
of its nine fields.  Machine integers do not overflow in the modelled
code paths, so `Nat`/`Int` are used directly.
-/

/-! ## Payload primitives

Modelled from the spec: `DPTArray` / `DPTBinary` live in `xknx/dpt/payload.py`,
which is not part of the sources here.  Per the spec an array payload is an
ordered immutable sequence of byte values and a binary payload is a single
bit carrier; neither validates its contents on construction. -/

/-- Wire payload: ordered byte sequence (`DPTArray`) or single-bit carrier
(`DPTBinary`). -/
inductive Payload where
  | array (value : List Nat)
  | binary (value : Nat)
deriving DecidableEq, Repr

/-- The two possible values of a transcoder's `payload_type` class attribute. -/
inductive PayloadShape where
  | array
  | binary
deriving DecidableEq, Repr

/-- `cls.payload_type.__name__` in the error message of `validate_payload`. -/
def PayloadShape.name : PayloadShape → String
  | .array => "DPTArray"
  | .binary => "DPTBinary"

/-! ## `time.struct_time` and `time.strptime` -/

/-- CPython `time.struct_time`: the nine named fields.  All fields produced by
the modelled code are non-negative except `tm_isdst` (which `strptime`
defaults to `-1`), so only that field is an `Int`. -/
structure StructTime where
  tm_year : Nat
  tm_mon : Nat
  tm_mday : Nat
  tm_hour : Nat
  tm_min : Nat
  tm_sec : Nat
  tm_wday : Nat
  tm_yday : Nat
  tm_isdst : Int
deriving DecidableEq, Repr

/-- `value[index]` for a `struct_time`, the sequence view used by the
weekday-detection loop of `DPTTime.to_knx`. -/
def structTimeIndex (v : StructTime) : Nat → Int
  | 0 => v.tm_year
  | 1 => v.tm_mon
  | 2 => v.tm_mday
  | 3 => v.tm_hour
  | 4 => v.tm_min
  | 5 => v.tm_sec
  | 6 => v.tm_wday
  | 7 => v.tm_yday
  | 8 => v.tm_isdst
  | _ => 0

/-- `time.strptime("", "")`: every field at its documented default,
`(1900, 1, 1, 0, 0, 0, 0, 1, -1)`. -/
def _default_time : StructTime :=
  { tm_year := 1900, tm_mon := 1, tm_mday := 1, tm_hour := 0, tm_min := 0
    tm_sec := 0, tm_wday := 0, tm_yday := 1, tm_isdst := -1 }

/-- CPython `time.strptime(f"{h} {m} {s} {w}", "%H %M %S %w")`.
The `_strptime` regular expressions accept `%H` 0..23, `%M` 0..59,
`%S` 0..61 and `%w` 0..6 (raising `ValueError` otherwise), `%w` counts
0 = Sunday while `tm_wday` counts 0 = Monday, and all unparsed fields keep
their defaults `(1900, 1, 1, ..., tm_yday = 1, tm_isdst = -1)`. -/
def pyStrptimeHMSw (h m s w : Nat) : Option StructTime :=
  if h ≤ 23 && m ≤ 59 && s ≤ 61 && w ≤ 6 then
    some { tm_year := 1900, tm_mon := 1, tm_mday := 1, tm_hour := h
           tm_min := m, tm_sec := s, tm_wday := if w = 0 then 6 else w - 1
           tm_yday := 1, tm_isdst := -1 }
  else
    none

/-- Input handed to `DPTTime.to_knx`: either a genuine `time.struct_time` or
some other Python object (identified only by a printable tag), which the
`isinstance` check rejects. -/
inductive TimeInput where
  | st (value : StructTime)
  | other (repr : String)
deriving DecidableEq, Repr

/-! ## Exceptions -/

/-- The exceptions raised by the embedded code: `CouldNotParseTelegram` from
`validate_payload` (with either an `expected_length` or an `expected_type`
keyword) and `ConversionError` from `DPTTime` (with either a `raw` payload
tuple or the rejected input `value`). -/
inductive KnxError where
  | couldNotParseTelegramLength (msg : String) (payload : Payload)
      (expected_length : Option Nat)
  | couldNotParseTelegramType (msg : String) (payload : Payload)
      (expected_type : String)
  | conversionErrorRaw (msg : String) (raw : List Nat)
  | conversionErrorValue (msg : String) (value : TimeInput)
deriving DecidableEq, Repr

/-! ## `DPTBase.validate_payload` (`dpt.py` lines 82-108) -/

/-- `DPTBase.validate_payload`, parameterised by the class attributes it
reads: `cls.__name__`, `cls.payload_type` and `cls.payload_length` (the
latter defaults to Python `None`, hence `Option Nat`). -/
def DPTBase.validate_payload (clsName : String) (payload_type : PayloadShape)
    (payload_length : Option Nat) (payload : Payload) :
    Except KnxError (List Nat) :=
  match payload_type, payload with
  | .array, .array v =>
      if payload_length == some v.length then
        .ok v
      else
        .error (.couldNotParseTelegramLength
          ("Invalid payload length for " ++ clsName) payload payload_length)
  | .binary, .binary b =>
      -- wrap in tuple for consistent return signature
      .ok [b]
  | _, _ =>
      .error (.couldNotParseTelegramType
        ("Invalid payload type for " ++ clsName) payload payload_type.name)

/-! ## `DPTTime` (`dpt_10.py`) -/

/-- `DPTTime._test_range`: component-wise range check.  The arguments are
naturals, so the lower bounds `0 <= _` of the source hold trivially. -/
def DPTTime._test_range (weekday hours minutes seconds : Nat) : Bool :=
  weekday ≤ 7 && hours ≤ 23 && minutes ≤ 59 && seconds ≤ 59

/-- `DPTTime.from_knx`: validate the payload as a 3-byte array, extract
weekday / hours / minutes / seconds by bit masking, range-check them, remap
the weekday code for `%w` and run `strptime`. -/
def DPTTime.from_knx (payload : Payload) : Except KnxError StructTime :=
  match DPTBase.validate_payload "DPTTime" PayloadShape.array (some 3) payload with
  | .error e => .error e
  | .ok raw =>
    let weekday := (raw.getD 0 0 &&& 0xE0) >>> 5
    let hours := raw.getD 0 0 &&& 0x1F
    let minutes := raw.getD 1 0 &&& 0x3F
    let seconds := raw.getD 2 0 &&& 0x3F
    if !(DPTTime._test_range weekday hours minutes seconds) then
      .error (.conversionErrorRaw "Could not parse DPTTime" raw)
    else
      -- struct_time has no concept of "no day"; default to monday (for %w this is 1)
      -- in knx Sunday is 7; in strftime %w its 0
      let weekday' := if weekday = 0 then 1 else if weekday = 7 then 0 else weekday
      match pyStrptimeHMSw hours minutes seconds weekday' with
      | some st => .ok st
      | none => .error (.conversionErrorRaw "Could not parse DPTTime" raw)

/-- The weekday code emitted by `DPTTime.to_knx`: 0 unless one of the
calendar-identifying fields (indices 0, 1, 2, 6, 7, 8) differs from the
`time.strptime("", "")` default, in which case `tm_wday + 1`.  The source
compares the interned field objects with `is not`, which on the values
produced by `strptime` coincides with equality. -/
def DPTTime.toKnxWeekday (value : StructTime) : Nat :=
  if ([0, 1, 2, 6, 7, 8] : List Nat).any
      (fun index => structTimeIndex value index != structTimeIndex _default_time index) then
    value.tm_wday + 1
  else
    0

/-- `DPTTime.to_knx`: reject non-`struct_time` input, determine the weekday
code, pack `(weekday << 5 | tm_hour, tm_min, tm_sec)`. -/
def DPTTime.to_knx (value : TimeInput) : Except KnxError Payload :=
  match value with
  | .other _ =>
      .error (.conversionErrorValue
        "Could not serialize DPTTime - time.struct_time expected" value)
  | .st v =>
      .ok (.array [DPTTime.toKnxWeekday v <<< 5 ||| v.tm_hour, v.tm_min, v.tm_sec])

/-! ## Transcoder registry and lookup (`dpt.py` lines 119-201) -/

/-- The class attributes of one `DPTBase` subclass that the registry reads:
abstractness, whether `dpt_main_number` / `dpt_sub_number` / `value_type`
are declared in the class's own `__dict__` (rather than inherited), and the
values visible on the class. -/
structure DPTClassInfo where
  className : String
  isabstract : Bool
  hasDistinctDptNumbers : Bool
  dpt_main_number : Option Int
  dpt_sub_number : Option Int
  hasDistinctValueType : Bool
  value_type : Option String
deriving DecidableEq, Repr

/-- The live subclass hierarchy below (and including) one class, as walked by
`__recursive_subclasses__`. -/
inductive PyClassTree where
  | node (info : DPTClassInfo) (subclasses : List PyClassTree)

/-- The class at the root of a subtree. -/
def PyClassTree.info : PyClassTree → DPTClassInfo
  | .node i _ => i

mutual

/-- `DPTBase.__recursive_subclasses__`: for each direct subclass, yield its
own recursive subclasses first, then the subclass itself when not abstract. -/
def recursiveSubclasses : PyClassTree → List DPTClassInfo
  | .node _ subs => recursiveSubclassesList subs

/-- The loop body of `__recursive_subclasses__` over the subclass list. -/
def recursiveSubclassesList : List PyClassTree → List DPTClassInfo
  | [] => []
  | sc :: rest =>
      recursiveSubclasses sc
        ++ (if sc.info.isabstract then [] else [sc.info])
        ++ recursiveSubclassesList rest

end

/-- `DPTBase.dpt_class_tree`: the class itself when not abstract, then all
non-abstract recursive subclasses. -/
def DPTBase.dpt_class_tree (cls : PyClassTree) : List DPTClassInfo :=
  (if cls.info.isabstract then [] else [cls.info]) ++ recursiveSubclasses cls

/-- `DPTBase.transcoder_by_dpt`: first class in `dpt_class_tree` with
self-declared dpt numbers matching `(dpt_main, dpt_sub)` exactly.  Python's
`int == None` is `False`, hence the `Option` equalities. -/
def DPTBase.transcoder_by_dpt (cls : PyClassTree) (dpt_main : Int)
    (dpt_sub : Option Int) : Option DPTClassInfo :=
  (DPTBase.dpt_class_tree cls).find? fun dpt =>
    dpt.hasDistinctDptNumbers
      && dpt.dpt_main_number == some dpt_main
      && dpt.dpt_sub_number == dpt_sub

/-- `DPTBase.transcoder_by_value_type`: first class in `dpt_class_tree` with
a self-declared `value_type` equal to the query. -/
def DPTBase.transcoder_by_value_type (cls : PyClassTree) (value_type : String) :
    Option DPTClassInfo :=
  (DPTBase.dpt_class_tree cls).find? fun dpt =>
    dpt.hasDistinctValueType && dpt.value_type == some value_type

/-! ## Python string primitives used by `parse_transcoder` -/

/-- The whitespace characters stripped by `str.strip()` (ASCII range). -/
def pyWhitespace : List Char := [' ', '\t', '\n', '\x0b', '\x0c', '\r']

/-- Python `str.strip(chars)`: remove any of `chars` from both ends. -/
def pyStripChars (l : List Char) (chars : List Char) : List Char :=
  ((l.dropWhile (chars.contains ·)).reverse.dropWhile (chars.contains ·)).reverse

/-- Python `str.strip()` with no argument: strip whitespace from both ends. -/
def pyStrip (s : String) : String :=
  String.mk (pyStripChars s.toList pyWhitespace)

/-- Python `str.upper()` (ASCII). -/
def pyUpper (s : String) : String := String.mk (s.toList.map Char.toUpper)

/-- Python `str.isdigit()`: non-empty and all decimal digits (ASCII). -/
def pyIsdigit (s : String) : Bool := !s.toList.isEmpty && s.toList.all Char.isDigit

/-- Python `str.split(".")` on a character list. -/
def pySplitDot : List Char → List (List Char)
  | [] => [[]]
  | c :: rest =>
    if c = '.' then [] :: pySplitDot rest
    else
      match pySplitDot rest with
      | h :: t => (c :: h) :: t
      | [] => [[c]]

/-- Numeric value of a decimal digit string. -/
def digitsToNat (l : List Char) : Nat :=
  l.foldl (fun acc c => acc * 10 + (c.toNat - 48)) 0

/-- Python `int(str)`: surrounding whitespace, an optional sign, then at
least one decimal digit; `none` models the raised `ValueError`. -/
def pyParseInt (l : List Char) : Option Int :=
  match pyStripChars l pyWhitespace with
  | '-' :: ds =>
      if !ds.isEmpty && ds.all Char.isDigit then some (-(digitsToNat ds : Int)) else none
  | '+' :: ds =>
      if !ds.isEmpty && ds.all Char.isDigit then some ((digitsToNat ds : Int)) else none
  | ds =>
      if !ds.isEmpty && ds.all Char.isDigit then some ((digitsToNat ds : Int)) else none

/-! ## `DPTBase.parse_transcoder` (`dpt.py` lines 164-201) -/

/-- A loosely-typed Python value stored under a mapping key. -/
inductive PyVal where
  | int (n : Int)
  | str (s : String)
  | none_
  | other (repr : String)
deriving DecidableEq, Repr

/-- Python `int(v)` applied to a mapping entry: ints pass through, strings
are parsed (`ValueError` on failure), `None` and other objects raise
`TypeError`; `none` models the raised exception. -/
def pyIntCoerce : PyVal → Option Int
  | .int n => some n
  | .str s => pyParseInt s.toList
  | .none_ => none
  | .other _ => none

/-- A Python mapping queried for "main" and "sub": `none` means the key is
absent, `some PyVal.none_` an explicit null value. -/
structure PyMapping where
  main : Option PyVal
  sub : Option PyVal
deriving DecidableEq, Repr

/-- The three accepted runtime types of `parse_transcoder`'s argument. -/
inductive ParseInput where
  | pint (n : Int)
  | pstr (s : String)
  | pmap (m : PyMapping)
deriving DecidableEq, Repr

/-- The character set of `.strip(" DPT-")`. -/
def dptStripSet : List Char := [' ', 'D', 'P', 'T', '-']

/-- `string_type.upper().strip(" DPT-")`: uppercase, then strip the
characters space, `D`, `P`, `T`, `-` from both ends. -/
def pyUpperStripDPT (s : String) : String :=
  String.mk (pyStripChars (pyUpper s).toList dptStripSet)

/-- String branch of `DPTBase.parse_transcoder`: exact `value_type` alias
match on the stripped string first; otherwise uppercase, strip the
`" DPT-"` characters, then lookup by main number when all digits, else try
`main, sub = map(int, string.split("."))` (any unpack or parse failure is
caught and yields `none`). -/
def DPTBase.parseTranscoderStr (cls : PyClassTree) (value_type : String) :
    Option DPTClassInfo :=
  let string_type := pyStrip value_type
  match DPTBase.transcoder_by_value_type cls string_type with
  | some transcoder => some transcoder
  | none =>
    let string_type := pyUpperStripDPT string_type
    if pyIsdigit string_type then
      DPTBase.transcoder_by_dpt cls ((pyParseInt string_type.toList).getD 0) none
    else
      match (pySplitDot string_type.toList).map pyParseInt with
      | [some main, some sub] => DPTBase.transcoder_by_dpt cls main (some sub)
      | _ => none

/-- Mapping branch of `DPTBase.parse_transcoder`: `int(value_type["main"])`
with `KeyError`/`TypeError`/`ValueError` caught as `none`; `.get("sub")`
yields Python `None` both for an absent key and an explicit null. -/
def DPTBase.parseTranscoderMapping (cls : PyClassTree) (m : PyMapping) :
    Option DPTClassInfo :=
  match m.main with
  | none => none
  | some mainVal =>
    match pyIntCoerce mainVal with
    | none => none
    | some main =>
      match m.sub.getD PyVal.none_ with
      | PyVal.none_ => DPTBase.transcoder_by_dpt cls main none
      | subVal =>
        match pyIntCoerce subVal with
        | none => none
        | some sub => DPTBase.transcoder_by_dpt cls main (some sub)

/-- `DPTBase.parse_transcoder`, dispatching on the runtime type. -/
def DPTBase.parse_transcoder (cls : PyClassTree) : ParseInput → Option DPTClassInfo
  | .pint n => DPTBase.transcoder_by_dpt cls n none
  | .pstr s => DPTBase.parseTranscoderStr cls s
  | .pmap m => DPTBase.parseTranscoderMapping cls m

/-! ## `DPTComplex.to_knx` (`dpt.py` lines 249-259) -/

/-- The runtime class of a raised Python exception. -/
inductive PyExcKind where
  | valueError
  | typeError
  | attributeError
  | conversionError
  | keyError
  | otherError
deriving DecidableEq, Repr

/-- A raised Python exception: its class and its message. -/
structure PyExc where
  kind : PyExcKind
  msg : String
deriving DecidableEq, Repr

/-- The exception classes named in the `except` clause of
`DPTComplex.to_knx`: `(ValueError, TypeError, AttributeError,
ConversionError)`. -/
def caughtByComplexToKnx (k : PyExcKind) : Bool :=
  k == .valueError || k == .typeError || k == .attributeError || k == .conversionError

/-- The outcome of `DPTComplex.to_knx`: either the uniform `ConversionError`
raised by its handler (carrying the message and the offending input) or an
exception that escaped the `except` clause unchanged. -/
inductive ComplexResultErr (γ : Type) where
  | wrapped (msg : String) (value : γ)
  | unhandled (e : PyExc)
deriving DecidableEq, Repr

/-- The body of the `try` block of `DPTComplex.to_knx`: encode directly when
the value is a `cls.data_type` instance (`Sum.inl`), otherwise convert the
mapping through `cls.data_type.from_dict` first. -/
def complexAttempt {α β : Type} (from_dict : β → Except PyExc α)
    (toKnxRaw : α → Except PyExc (List Nat)) (value : α ⊕ β) :
    Except PyExc (List Nat) :=
  match value with
  | .inl data => toKnxRaw data
  | .inr mapping =>
    match from_dict mapping with
    | .ok data => toKnxRaw data
    | .error e => .error e

/-- `DPTComplex.to_knx`, parameterised by the abstract members it calls:
`cls.data_type.from_dict` and `cls._to_knx`.  Exceptions of the four caught
classes are re-raised as one uniform `ConversionError`; any other exception
propagates unchanged. -/
def DPTComplex.to_knx {α β : Type} (clsName : String)
    (from_dict : β → Except PyExc α) (toKnxRaw : α → Except PyExc (List Nat))
    (value : α ⊕ β) : Except (ComplexResultErr (α ⊕ β)) (List Nat) :=
  match complexAttempt from_dict toKnxRaw value with
  | .ok r => .ok r
  | .error e =>
    if caughtByComplexToKnx e.kind then
      .error (.wrapped ("Could not serialize " ++ clsName ++ ": " ++ e.msg) value)
    else
      .error (.unhandled e)

/-! ## Helper lemmas -/

/-- Packing a 3-bit code with a 5-bit hour and reading the top bits back. -/
theorem maskHi_of_pack : ∀ c < 8, ∀ h < 32, ((c <<< 5 ||| h) &&& 0xE0) >>> 5 = c := by
  decide

/-- Packing a 3-bit code with a 5-bit hour and reading the low bits back. -/
theorem maskLo_of_pack : ∀ c < 8, ∀ h < 32, (c <<< 5 ||| h) &&& 0x1F = h := by
  decide

/-- Masking with `0x3F` is the identity below 64. -/
theorem mask63_of_lt : ∀ m < 64, m &&& 0x3F = m := by
  decide

/-- The weekday-detection loop of `DPTTime.to_knx` in closed form: code 0
exactly when all six calendar-identifying fields equal the `strptime`
defaults. -/
theorem toKnxWeekday_eq (v : StructTime) :
    DPTTime.toKnxWeekday v =
      if v.tm_year = 1900 ∧ v.tm_mon = 1 ∧ v.tm_mday = 1 ∧ v.tm_wday = 0
          ∧ v.tm_yday = 1 ∧ v.tm_isdst = -1
      then 0 else v.tm_wday + 1 := by
  unfold DPTTime.toKnxWeekday
  simp only [List.any_cons, List.any_nil, structTimeIndex, _default_time,
    Bool.or_eq_true, bne_iff_ne, ne_eq, Bool.or_false]
  split
  · next hany =>
      split
      · next hdef => exact absurd hany (by push_cast; omega)
      · rfl
  · next hany =>
      split
      · rfl
      · next hdef => exact absurd hdef (by push_cast at hany; omega)

/-! ## Claim C4 -/

/-- Claim C4: `validate_payload` on an array-shaped transcoder returns an
array payload's bytes unchanged exactly when its length equals the declared
`payload_length` and otherwise fails with a shape error carrying the
expected length; on a binary-shaped transcoder it wraps a binary payload's
bit in a single-element tuple; every other shape/payload combination fails
with a shape error naming the expected payload kind. -/
theorem validate_payload_spec :
    (∀ (clsName : String) (n : Nat) (v : List Nat),
      DPTBase.validate_payload clsName .array (some n) (.array v) =
        if v.length = n then .ok v
        else .error (.couldNotParseTelegramLength
          ("Invalid payload length for " ++ clsName) (.array v) (some n)))
    ∧ (∀ (clsName : String) (len : Option Nat) (b : Nat),
      DPTBase.validate_payload clsName .binary len (.binary b) = .ok [b])
    ∧ (∀ (clsName : String) (len : Option Nat) (b : Nat),
      DPTBase.validate_payload clsName .array len (.binary b) =
        .error (.couldNotParseTelegramType
          ("Invalid payload type for " ++ clsName) (.binary b) "DPTArray"))
    ∧ (∀ (clsName : String) (len : Option Nat) (v : List Nat),
      DPTBase.validate_payload clsName .binary len (.array v) =
        .error (.couldNotParseTelegramType
          ("Invalid payload type for " ++ clsName) (.array v) "DPTBinary")) := by
  refine ⟨?_, ?_, ?_, ?_⟩
  · intro clsName n v
    by_cases h : v.length = n
    · simp [DPTBase.validate_payload, h]
    · simp only [DPTBase.validate_payload]
      rw [if_neg (by simpa using fun hh => h hh.symm), if_neg h]
  · intro clsName len b
    rfl
  · intro clsName len b
    rfl
  · intro clsName len v
    rfl

/-! ## Claim C5 -/

/-- Claim C5: `DPTTime.to_knx` emits weekday code 0 exactly for values whose
calendar-identifying fields (year, month, day, weekday, yearday, dst) all
equal the `strptime` defaults, and otherwise the concrete weekday code
`tm_wday + 1` (Monday..Saturday as 1..6, Sunday as 7); in particular the
"no specific weekday" sentinel with hour = minute = second = 0 encodes to
byte 0 = 0x00. -/
theorem toKnx_weekday_code_spec :
    (∀ v : StructTime,
      v.tm_year = 1900 → v.tm_mon = 1 → v.tm_mday = 1 → v.tm_wday = 0 →
      v.tm_yday = 1 → v.tm_isdst = -1 → DPTTime.toKnxWeekday v = 0)
    ∧ (∀ v : StructTime,
      ¬(v.tm_year = 1900 ∧ v.tm_mon = 1 ∧ v.tm_mday = 1 ∧ v.tm_wday = 0
          ∧ v.tm_yday = 1 ∧ v.tm_isdst = -1) →
      DPTTime.toKnxWeekday v = v.tm_wday + 1)
    ∧ DPTTime.to_knx (.st _default_time) = .ok (.array [0, 0, 0]) := by
  refine ⟨?_, ?_, ?_⟩
  · intro v h0 h1 h2 h6 h7 h8
    rw [toKnxWeekday_eq, if_pos ⟨h0, h1, h2, h6, h7, h8⟩]
  · intro v h
    rw [toKnxWeekday_eq, if_neg h]
  · rfl

/-- Witness for C5: the sentinel value itself takes the first branch and the
struct for Tuesday 1900-01-02 the second. -/
theorem toKnx_weekday_code_spec_witness :
    DPTTime.toKnxWeekday _default_time = 0
      ∧ DPTTime.toKnxWeekday
          { tm_year := 1900, tm_mon := 1, tm_mday := 2, tm_hour := 0, tm_min := 0
            tm_sec := 0, tm_wday := 1, tm_yday := 2, tm_isdst := -1 } = 2 :=
  ⟨toKnx_weekday_code_spec.1 _default_time rfl rfl rfl rfl rfl rfl,
   toKnx_weekday_code_spec.2.1 _ (by simp)⟩

/-! ## Claim C6 (corrected) -/

/-- A `struct_time` carrying the out-of-range hour 30 with every other
field at the `strptime` default. -/
def hour30Struct : StructTime :=
  { tm_year := 1900, tm_mon := 1, tm_mday := 1, tm_hour := 30, tm_min := 0
    tm_sec := 0, tm_wday := 0, tm_yday := 1, tm_isdst := -1 }

/-- Counterexample to claim C6 as stated: a `struct_time` whose hour field
is 30 — outside the format's 0..23 range — is serialized without any error:
`to_knx` returns the 3-byte payload `(30, 0, 0)` instead of failing. -/
theorem toKnx_no_range_check_counterexample :
    DPTTime.to_knx (.st hour30Struct) = .ok (.array [30, 0, 0])
      ∧ ¬(hour30Struct.tm_hour ≤ 23) := by
  constructor
  · rfl
  · decide

/-- Claim C6 amended: `DPTTime.to_knx` fails with a `ConversionError`
carrying the rejected input exactly when the value is not a
`time.struct_time`; for every `struct_time` input it succeeds with an array
payload of the declared length 3 — hour, minute and second are packed
without any range validation. -/
theorem toKnx_error_spec :
    (∀ r : String,
      DPTTime.to_knx (.other r) =
        .error (.conversionErrorValue
          "Could not serialize DPTTime - time.struct_time expected" (.other r)))
    ∧ (∀ v : StructTime, ∃ bytes : List Nat,
      DPTTime.to_knx (.st v) = .ok (.array bytes) ∧ bytes.length = 3) := by
  refine ⟨fun r => rfl, fun v => ⟨_, rfl, rfl⟩⟩

/-! ## Claim C10 -/

/-- Claim C10: once `_test_range` has accepted the extracted weekday, hour,
minute and second, the `strptime` call of `DPTTime.from_knx` (on the
remapped weekday code) always succeeds, so the `except ValueError` branch
around it is unreachable. -/
theorem strptime_after_range_check (weekday hours minutes seconds : Nat)
    (h : DPTTime._test_range weekday hours minutes seconds = true) :
    (pyStrptimeHMSw hours minutes seconds
      (if weekday = 0 then 1 else if weekday = 7 then 0 else weekday)).isSome = true := by
  simp only [DPTTime._test_range, Bool.and_eq_true, decide_eq_true_eq] at h
  obtain ⟨⟨⟨hw, hh⟩, hm⟩, hs⟩ := h
  simp only [pyStrptimeHMSw]
  rw [if_pos]
  · rfl
  · simp only [Bool.and_eq_true, decide_eq_true_eq]
    split
    · omega
    · split <;> omega

/-- Witness for C10 at the in-range components extracted from the payload
`(0x21, 0x05, 0x07)`. -/
theorem strptime_after_range_check_witness :
    (pyStrptimeHMSw 1 5 7 (if 1 = 0 then 1 else if 1 = 7 then 0 else 1)).isSome = true :=
  strptime_after_range_check 1 1 5 7 (by decide)

/-- The `struct_time` that decoding produces: hour/minute/second and weekday
as given, every other field at the `strptime` default. -/
def mkTimeStruct (h m s wd : Nat) : StructTime :=
  { tm_year := 1900, tm_mon := 1, tm_mday := 1, tm_hour := h, tm_min := m
    tm_sec := s, tm_wday := wd, tm_yday := 1, tm_isdst := -1 }

/-- `validate_payload` accepts any 3-byte array for `DPTTime`. -/
theorem validate_time_three (b0 b1 b2 : Nat) :
    DPTBase.validate_payload "DPTTime" .array (some 3) (.array [b0, b1, b2]) =
      .ok [b0, b1, b2] := rfl

/-- The extracted weekday code is at most 7 for any byte. -/
theorem maskHi_le_7 (b : Nat) : (b &&& 0xE0) >>> 5 ≤ 7 := by
  have h : b &&& 0xE0 ≤ 0xE0 := Nat.and_le_right
  rw [Nat.shiftRight_eq_div_pow]
  omega

/-- Closed form of `DPTTime.from_knx` on a 3-byte array payload. -/
theorem fromKnx_three_bytes (b0 b1 b2 : Nat) :
    DPTTime.from_knx (.array [b0, b1, b2]) =
      if (b0 &&& 0xE0) >>> 5 ≤ 7 ∧ b0 &&& 0x1F ≤ 23 ∧ b1 &&& 0x3F ≤ 59
          ∧ b2 &&& 0x3F ≤ 59 then
        .ok (mkTimeStruct (b0 &&& 0x1F) (b1 &&& 0x3F) (b2 &&& 0x3F)
          (if (b0 &&& 0xE0) >>> 5 = 0 then 0
           else if (b0 &&& 0xE0) >>> 5 = 7 then 6 else (b0 &&& 0xE0) >>> 5 - 1))
      else .error (.conversionErrorRaw "Could not parse DPTTime" [b0, b1, b2]) := by
  have hw7 : (b0 &&& 0xE0) >>> 5 ≤ 7 := maskHi_le_7 b0
  have hh31 : b0 &&& 0x1F ≤ 0x1F := Nat.and_le_right
  have hm63 : b1 &&& 0x3F ≤ 0x3F := Nat.and_le_right
  have hs63 : b2 &&& 0x3F ≤ 0x3F := Nat.and_le_right
  simp only [DPTTime.from_knx, validate_time_three, List.getD_cons_zero,
    List.getD_cons_succ]
  generalize hwdef : (b0 &&& 0xE0) >>> 5 = w at *
  generalize hhdef : b0 &&& 0x1F = hh at *
  generalize hmdef : b1 &&& 0x3F = mm at *
  generalize hsdef : b2 &&& 0x3F = ss at *
  by_cases hr : w ≤ 7 ∧ hh ≤ 23 ∧ mm ≤ 59 ∧ ss ≤ 59
  · rw [if_pos hr]
    obtain ⟨-, hh23, hm59, hs59⟩ := hr
    have hs61 : ss ≤ 61 := by omega
    have ht : DPTTime._test_range w hh mm ss = true := by
      simp only [DPTTime._test_range, Bool.and_eq_true, decide_eq_true_eq]
      exact ⟨⟨⟨hw7, hh23⟩, hm59⟩, hs59⟩
    rw [ht]
    interval_cases w <;> simp_all [pyStrptimeHMSw, mkTimeStruct]
  · rw [if_neg hr]
    have ht : DPTTime._test_range w hh mm ss = false := by
      cases hb : DPTTime._test_range w hh mm ss
      · rfl
      · exfalso
        apply hr
        simp only [DPTTime._test_range, Bool.and_eq_true, decide_eq_true_eq] at hb
        exact ⟨hb.1.1.1, hb.1.1.2, hb.1.2, hb.2⟩
    rw [ht]
    rfl

/-! ## Claim C2 -/

/-- Claim C2: on any 3-byte array payload `from_knx` extracts the weekday
code from bits 7-5 of byte 0, the hour from bits 4-0 of byte 0, the minute
from bits 5-0 of byte 1 and the second from bits 5-0 of byte 2 (bits 7-6 of
bytes 1 and 2 ignored), fails with a `ConversionError` exactly when a
component falls outside weekday 0-7, hour 0-23, minute 0-59 or second 0-59,
and otherwise maps weekday code 0 to Monday by default, 1-6 to that weekday
and 7 to Sunday (`tm_wday` 0 = Monday .. 6 = Sunday); in particular
`(0x21, 0x05, 0x07)` decodes to Monday 01:05:07. -/
theorem fromKnx_spec :
    (∀ b0 b1 b2 : Nat,
      DPTTime.from_knx (.array [b0, b1, b2]) =
        if (b0 &&& 0xE0) >>> 5 ≤ 7 ∧ b0 &&& 0x1F ≤ 23 ∧ b1 &&& 0x3F ≤ 59
            ∧ b2 &&& 0x3F ≤ 59 then
          .ok (mkTimeStruct (b0 &&& 0x1F) (b1 &&& 0x3F) (b2 &&& 0x3F)
            (if (b0 &&& 0xE0) >>> 5 = 0 then 0
             else if (b0 &&& 0xE0) >>> 5 = 7 then 6 else (b0 &&& 0xE0) >>> 5 - 1))
        else .error (.conversionErrorRaw "Could not parse DPTTime" [b0, b1, b2]))
    ∧ DPTTime.from_knx (.array [0x21, 0x05, 0x07]) = .ok (mkTimeStruct 1 5 7 0) :=
  ⟨fromKnx_three_bytes, by rfl⟩

/-! ## Claim C1 -/

/-- Claim C1: decoding the payload produced by encoding any legal time value
(weekday unspecified-or-Monday..Sunday as `tm_wday` 0..6, hour 0-23, minute
0-59, second 0-59, all calendar fields at the `strptime` defaults) returns
the value unchanged: `from_knx (to_knx value) = value`. -/
theorem time_roundtrip (h m s wd : Nat) (hh : h ≤ 23) (hm : m ≤ 59)
    (hs : s ≤ 59) (hw : wd ≤ 6) :
    (DPTTime.to_knx (.st (mkTimeStruct h m s wd))).bind DPTTime.from_knx
      = .ok (mkTimeStruct h m s wd) := by
  have hcode : DPTTime.toKnxWeekday (mkTimeStruct h m s wd) =
      if wd = 0 then 0 else wd + 1 := by
    rw [toKnxWeekday_eq]
    by_cases h0 : wd = 0
    · simp [mkTimeStruct, h0]
    · simp [mkTimeStruct, h0]
  show DPTTime.from_knx
      (.array [DPTTime.toKnxWeekday (mkTimeStruct h m s wd) <<< 5 ||| h, m, s]) = _
  rw [hcode, fromKnx_three_bytes]
  have hcode7 : (if wd = 0 then 0 else wd + 1) ≤ 7 := by split <;> omega
  rw [maskHi_of_pack _ (by omega) h (by omega),
      maskLo_of_pack _ (by omega) h (by omega),
      mask63_of_lt m (by omega), mask63_of_lt s (by omega)]
  rw [if_pos ⟨hcode7, hh, hm, hs⟩]
  have hwd : (if (if wd = 0 then 0 else wd + 1) = 0 then 0
      else if (if wd = 0 then 0 else wd + 1) = 7 then 6
      else (if wd = 0 then 0 else wd + 1) - 1) = wd := by
    by_cases h0 : wd = 0
    · simp [h0]
    · by_cases h6 : wd = 6
      · simp [h0, h6]
      · simp only [if_neg h0]
        rw [if_neg (by omega), if_neg (by omega)]
        omega
  rw [hwd]

/-- Witness for C1 at Monday-by-default 01:05:07. -/
theorem time_roundtrip_witness :
    (DPTTime.to_knx (.st (mkTimeStruct 1 5 7 0))).bind DPTTime.from_knx
      = .ok (mkTimeStruct 1 5 7 0) :=
  time_roundtrip 1 5 7 0 (by decide) (by decide) (by decide) (by decide)

/-! ## Registry lemmas -/

mutual

/-- Every class yielded by `__recursive_subclasses__` is non-abstract. -/
theorem notAbstract_of_mem_recursiveSubclasses :
    ∀ (t : PyClassTree), ∀ c ∈ recursiveSubclasses t, c.isabstract = false
  | .node _ subs => by
      intro c hc
      rw [recursiveSubclasses] at hc
      exact notAbstract_of_mem_recursiveSubclassesList subs c hc

/-- Every class yielded by the subclass loop is non-abstract. -/
theorem notAbstract_of_mem_recursiveSubclassesList :
    ∀ (l : List PyClassTree), ∀ c ∈ recursiveSubclassesList l, c.isabstract = false
  | [] => by
      intro c hc
      rw [recursiveSubclassesList] at hc
      simp at hc
  | sc :: rest => by
      intro c hc
      rw [recursiveSubclassesList] at hc
      simp only [List.mem_append] at hc
      rcases hc with (hc | hc) | hc
      · exact notAbstract_of_mem_recursiveSubclasses sc c hc
      · by_cases hb : sc.info.isabstract
        · simp [hb] at hc
        · simp only [hb, if_false, List.mem_singleton, Bool.false_eq_true] at hc
          rw [hc]
          simpa using hb
      · exact notAbstract_of_mem_recursiveSubclassesList rest c hc

end

/-- Every class yielded by `dpt_class_tree` is non-abstract. -/
theorem notAbstract_of_mem_dptClassTree (t : PyClassTree) :
    ∀ c ∈ DPTBase.dpt_class_tree t, c.isabstract = false := by
  intro c hc
  simp only [DPTBase.dpt_class_tree, List.mem_append] at hc
  rcases hc with hc | hc
  · by_cases hb : t.info.isabstract
    · simp [hb] at hc
    · simp only [hb, if_false, List.mem_singleton, Bool.false_eq_true] at hc
      rw [hc]
      simpa using hb
  · exact notAbstract_of_mem_recursiveSubclasses t c hc

/-- What a successful `transcoder_by_dpt` lookup guarantees about its
result: non-abstract, self-declared dpt numbers, and an exact match. -/
theorem transcoder_by_dpt_props {t : PyClassTree} {main : Int} {sub : Option Int}
    {c : DPTClassInfo} (h : DPTBase.transcoder_by_dpt t main sub = some c) :
    c.isabstract = false ∧ c.hasDistinctDptNumbers = true
      ∧ c.dpt_main_number = some main ∧ c.dpt_sub_number = sub := by
  simp only [DPTBase.transcoder_by_dpt] at h
  have hmem := List.mem_of_find?_eq_some h
  have hpred := List.find?_some h
  simp only [Bool.and_eq_true, beq_iff_eq] at hpred
  exact ⟨notAbstract_of_mem_dptClassTree t c hmem, hpred.1.1, hpred.1.2, hpred.2⟩

/-- What a successful `transcoder_by_value_type` lookup guarantees about its
result: non-abstract, self-declared `value_type`, and an exact match. -/
theorem transcoder_by_value_type_props {t : PyClassTree} {vt : String}
    {c : DPTClassInfo} (h : DPTBase.transcoder_by_value_type t vt = some c) :
    c.isabstract = false ∧ c.hasDistinctValueType = true
      ∧ c.value_type = some vt := by
  simp only [DPTBase.transcoder_by_value_type] at h
  have hmem := List.mem_of_find?_eq_some h
  have hpred := List.find?_some h
  simp only [Bool.and_eq_true, beq_iff_eq] at hpred
  exact ⟨notAbstract_of_mem_dptClassTree t c hmem, hpred.1, hpred.2⟩

/-! ## Claim C8 -/

/-- Claim C8: a transcoder returned by `transcoder_by_dpt`,
`transcoder_by_value_type` or `parse_transcoder` is never an abstract class
and never one whose identity fields are merely inherited: `transcoder_by_dpt`
results self-declare their dpt numbers, `transcoder_by_value_type` results
self-declare `value_type`, and any `parse_transcoder` result self-declares
one of the two. -/
theorem lookup_concrete_spec :
    (∀ (t : PyClassTree) (main : Int) (sub : Option Int) (c : DPTClassInfo),
      DPTBase.transcoder_by_dpt t main sub = some c →
        c.isabstract = false ∧ c.hasDistinctDptNumbers = true)
    ∧ (∀ (t : PyClassTree) (vt : String) (c : DPTClassInfo),
      DPTBase.transcoder_by_value_type t vt = some c →
        c.isabstract = false ∧ c.hasDistinctValueType = true)
    ∧ (∀ (t : PyClassTree) (inp : ParseInput) (c : DPTClassInfo),
      DPTBase.parse_transcoder t inp = some c →
        c.isabstract = false
          ∧ (c.hasDistinctDptNumbers = true ∨ c.hasDistinctValueType = true)) := by
  refine ⟨?_, ?_, ?_⟩
  · intro t main sub c h
    exact ⟨(transcoder_by_dpt_props h).1, (transcoder_by_dpt_props h).2.1⟩
  · intro t vt c h
    exact ⟨(transcoder_by_value_type_props h).1, (transcoder_by_value_type_props h).2.1⟩
  · intro t inp c h
    cases inp with
    | pint n =>
        simp only [DPTBase.parse_transcoder] at h
        exact ⟨(transcoder_by_dpt_props h).1, Or.inl (transcoder_by_dpt_props h).2.1⟩
    | pstr s =>
        simp only [DPTBase.parse_transcoder, DPTBase.parseTranscoderStr] at h
        split at h
        · next tc heq =>
            cases h
            exact ⟨(transcoder_by_value_type_props heq).1,
              Or.inr (transcoder_by_value_type_props heq).2.1⟩
        · split at h
          · exact ⟨(transcoder_by_dpt_props h).1, Or.inl (transcoder_by_dpt_props h).2.1⟩
          · split at h
            · exact ⟨(transcoder_by_dpt_props h).1, Or.inl (transcoder_by_dpt_props h).2.1⟩
            · cases h
    | pmap m =>
        simp only [DPTBase.parse_transcoder, DPTBase.parseTranscoderMapping] at h
        split at h
        · cases h
        · split at h
          · cases h
          · split at h
            · exact ⟨(transcoder_by_dpt_props h).1, Or.inl (transcoder_by_dpt_props h).2.1⟩
            · split at h
              · cases h
              · exact ⟨(transcoder_by_dpt_props h).1, Or.inl (transcoder_by_dpt_props h).2.1⟩

/-! ## A concrete fixture registry for witnesses -/

/-- Fixture: abstract base class with only inherited identity fields. -/
def dptBaseAbstract : DPTClassInfo :=
  { className := "DPTBase", isabstract := true, hasDistinctDptNumbers := false
    dpt_main_number := none, dpt_sub_number := none
    hasDistinctValueType := false, value_type := none }

/-- Fixture: concrete class declaring `(main, sub) = (9, None)`. -/
def dptClass9 : DPTClassInfo :=
  { className := "DPT9", isabstract := false, hasDistinctDptNumbers := true
    dpt_main_number := some 9, dpt_sub_number := none
    hasDistinctValueType := false, value_type := none }

/-- Fixture: concrete class declaring `(main, sub) = (10, 1)`. -/
def dptClass10sub1 : DPTClassInfo :=
  { className := "DPT10_1", isabstract := false, hasDistinctDptNumbers := true
    dpt_main_number := some 10, dpt_sub_number := some 1
    hasDistinctValueType := true, value_type := some "time" }

/-- Fixture: concrete class declaring `(main, sub) = (10, None)`. -/
def dptClass10none : DPTClassInfo :=
  { className := "DPT10", isabstract := false, hasDistinctDptNumbers := true
    dpt_main_number := some 10, dpt_sub_number := none
    hasDistinctValueType := false, value_type := none }

/-- Fixture class hierarchy: the abstract base with three concrete leaves. -/
def fixtureTree : PyClassTree :=
  .node dptBaseAbstract
    [.node dptClass9 [], .node dptClass10sub1 [], .node dptClass10none []]

/-- Traversal of the fixture hierarchy. -/
theorem dpt_class_tree_fixture :
    DPTBase.dpt_class_tree fixtureTree = [dptClass9, dptClass10sub1, dptClass10none] := by
  simp [DPTBase.dpt_class_tree, fixtureTree, recursiveSubclasses,
    recursiveSubclassesList, PyClassTree.info, dptBaseAbstract, dptClass9,
    dptClass10sub1, dptClass10none]

/-- Fixture lookup: main number 9 finds the declaring class. -/
theorem by_dpt_fixture_9 :
    DPTBase.transcoder_by_dpt fixtureTree 9 none = some dptClass9 := by
  simp only [DPTBase.transcoder_by_dpt, dpt_class_tree_fixture]
  decide

/-- Fixture lookup: `(10, None)` finds the sub-less class, not `(10, 1)`. -/
theorem by_dpt_fixture_10 :
    DPTBase.transcoder_by_dpt fixtureTree 10 none = some dptClass10none := by
  simp only [DPTBase.transcoder_by_dpt, dpt_class_tree_fixture]
  decide

/-- Fixture alias lookups used by the C3 witness: no alias matches "DPT-9"
or "9". -/
theorem by_value_type_fixture :
    DPTBase.transcoder_by_value_type fixtureTree "DPT-9" = none
      ∧ DPTBase.transcoder_by_value_type fixtureTree "9" = none := by
  constructor <;>
    · simp only [DPTBase.transcoder_by_value_type, dpt_class_tree_fixture]
      decide

/-- Witness for C8: the `(9, None)` lookup on the fixture registry returns a
non-abstract class with self-declared dpt numbers. -/
theorem lookup_concrete_spec_witness :
    dptClass9.isabstract = false ∧ dptClass9.hasDistinctDptNumbers = true :=
  lookup_concrete_spec.1 fixtureTree 9 none dptClass9 by_dpt_fixture_9

/-! ## Claim C7 -/

/-- Claim C7: on a mapping input, `parse_transcoder` coerces the "main"
entry to an integer and returns `none` when the key is missing or the
coercion fails; a "sub" entry that is absent or null is treated as absent
and then matches only transcoders whose own declared sub-number is `None`
(never a concrete sub-number); a present non-null sub is coerced to an
integer (failure yields `none`) and matched exactly. -/
theorem parse_mapping_spec :
    (∀ (t : PyClassTree) (m : PyMapping), m.main = none →
      DPTBase.parse_transcoder t (.pmap m) = none)
    ∧ (∀ (t : PyClassTree) (m : PyMapping) (v : PyVal), m.main = some v →
      pyIntCoerce v = none → DPTBase.parse_transcoder t (.pmap m) = none)
    ∧ (∀ (t : PyClassTree) (m : PyMapping) (v : PyVal) (main : Int),
      m.main = some v → pyIntCoerce v = some main →
      (m.sub = none ∨ m.sub = some PyVal.none_) →
      DPTBase.parse_transcoder t (.pmap m) = DPTBase.transcoder_by_dpt t main none
        ∧ ∀ c : DPTClassInfo, DPTBase.transcoder_by_dpt t main none = some c →
            c.dpt_sub_number = none)
    ∧ (∀ (t : PyClassTree) (m : PyMapping) (v sv : PyVal) (main : Int),
      m.main = some v → pyIntCoerce v = some main →
      m.sub = some sv → sv ≠ PyVal.none_ →
      DPTBase.parse_transcoder t (.pmap m) =
        (match pyIntCoerce sv with
         | none => none
         | some sub => DPTBase.transcoder_by_dpt t main (some sub))) := by
  refine ⟨?_, ?_, ?_, ?_⟩
  · intro t m hmain
    simp [DPTBase.parse_transcoder, DPTBase.parseTranscoderMapping, hmain]
  · intro t m v hmain hco
    simp [DPTBase.parse_transcoder, DPTBase.parseTranscoderMapping, hmain, hco]
  · intro t m v main hmain hco hsub
    constructor
    · rcases hsub with hsub | hsub <;>
        simp [DPTBase.parse_transcoder, DPTBase.parseTranscoderMapping,
          hmain, hco, hsub]
    · intro c hc
      exact (transcoder_by_dpt_props hc).2.2.2
  · intro t m v sv main hmain hco hsub hne
    cases sv with
    | none_ => exact absurd rfl hne
    | int n =>
        simp [DPTBase.parse_transcoder, DPTBase.parseTranscoderMapping,
          hmain, hco, hsub]
    | str s =>
        simp [DPTBase.parse_transcoder, DPTBase.parseTranscoderMapping,
          hmain, hco, hsub]
    | other r =>
        simp [DPTBase.parse_transcoder, DPTBase.parseTranscoderMapping,
          hmain, hco, hsub]

/-- Witness for C7: on the fixture registry the mapping
`{"main": 10, "sub": null}` resolves to the transcoder declaring
`sub = None`, not the one declaring `(10, 1)`. -/
theorem parse_mapping_spec_witness :
    DPTBase.parse_transcoder fixtureTree
        (.pmap { main := some (.int 10), sub := some .none_ })
      = DPTBase.transcoder_by_dpt fixtureTree 10 none
      ∧ dptClass10none.dpt_sub_number = none := by
  have h := parse_mapping_spec.2.2.1 fixtureTree
    { main := some (.int 10), sub := some .none_ } (.int 10) 10 rfl rfl (Or.inr rfl)
  exact ⟨h.1, h.2 dptClass10none by_dpt_fixture_10⟩

/-! ## Claim C3 -/

/-- Claim C3: on a string input, `parse_transcoder` first strips whitespace
and tries an exact match against declared `value_type` aliases; if none
matches it uppercases and strips the leading/trailing whitespace and
`"DPT-"` characters, then: an all-digits remainder is looked up by integer
main number with sub absent; a remainder that splits at "." into exactly
two integer-parsable parts is looked up as an exact `(main, sub)` pair;
anything else yields `none`.  Consequently (when no declared alias equals
"DPT-9" or "9") resolving "DPT-9", "9" and the integer 9 all return the
same transcoder or all return `none`. -/
theorem parse_string_spec :
    (∀ (t : PyClassTree) (s : String) (c : DPTClassInfo),
      DPTBase.transcoder_by_value_type t (pyStrip s) = some c →
      DPTBase.parse_transcoder t (.pstr s) = some c)
    ∧ (∀ (t : PyClassTree) (s : String),
      DPTBase.transcoder_by_value_type t (pyStrip s) = none →
      pyIsdigit (pyUpperStripDPT (pyStrip s)) = true →
      DPTBase.parse_transcoder t (.pstr s) =
        DPTBase.transcoder_by_dpt t
          ((pyParseInt (pyUpperStripDPT (pyStrip s)).toList).getD 0) none)
    ∧ (∀ (t : PyClassTree) (s : String) (main sub : Int),
      DPTBase.transcoder_by_value_type t (pyStrip s) = none →
      pyIsdigit (pyUpperStripDPT (pyStrip s)) = false →
      (pySplitDot (pyUpperStripDPT (pyStrip s)).toList).map pyParseInt
        = [some main, some sub] →
      DPTBase.parse_transcoder t (.pstr s) =
        DPTBase.transcoder_by_dpt t main (some sub))
    ∧ (∀ (t : PyClassTree) (s : String),
      DPTBase.transcoder_by_value_type t (pyStrip s) = none →
      pyIsdigit (pyUpperStripDPT (pyStrip s)) = false →
      (∀ main sub : Int,
        (pySplitDot (pyUpperStripDPT (pyStrip s)).toList).map pyParseInt
          ≠ [some main, some sub]) →
      DPTBase.parse_transcoder t (.pstr s) = none)
    ∧ (∀ t : PyClassTree,
      DPTBase.transcoder_by_value_type t "DPT-9" = none →
      DPTBase.transcoder_by_value_type t "9" = none →
      DPTBase.parse_transcoder t (.pstr "DPT-9") = DPTBase.transcoder_by_dpt t 9 none
        ∧ DPTBase.parse_transcoder t (.pstr "9") = DPTBase.transcoder_by_dpt t 9 none
        ∧ DPTBase.parse_transcoder t (.pint 9) = DPTBase.transcoder_by_dpt t 9 none) := by
  refine ⟨?_, ?_, ?_, ?_, ?_⟩
  · intro t s c halias
    simp [DPTBase.parse_transcoder, DPTBase.parseTranscoderStr, halias]
  · intro t s halias hdig
    simp [DPTBase.parse_transcoder, DPTBase.parseTranscoderStr, halias, hdig]
  · intro t s main sub halias hdig hsplit
    have hsplit2 : List.map pyParseInt (pySplitDot (pyUpperStripDPT (pyStrip s)).data)
        = [some main, some sub] := hsplit
    simp [DPTBase.parse_transcoder, DPTBase.parseTranscoderStr, halias, hdig, hsplit2]
  · intro t s halias hdig hne
    simp only [DPTBase.parse_transcoder, DPTBase.parseTranscoderStr, halias, hdig,
      Bool.false_eq_true, if_false]
  · intro t h1 h2
    refine ⟨?_, ?_, rfl⟩
    · simp only [DPTBase.parse_transcoder, DPTBase.parseTranscoderStr]
      rw [show pyStrip "DPT-9" = "DPT-9" from rfl, h1]
      rfl
    · simp only [DPTBase.parse_transcoder, DPTBase.parseTranscoderStr]
      rw [show pyStrip "9" = "9" from rfl, h2]
      rfl

/-- Witness for C3: on the fixture registry (which declares no digit-like
alias) "DPT-9", "9" and the integer 9 all resolve to the `(9, None)`
lookup. -/
theorem parse_string_spec_witness :
    DPTBase.parse_transcoder fixtureTree (.pstr "DPT-9")
        = DPTBase.transcoder_by_dpt fixtureTree 9 none
      ∧ DPTBase.parse_transcoder fixtureTree (.pstr "9")
        = DPTBase.transcoder_by_dpt fixtureTree 9 none
      ∧ DPTBase.parse_transcoder fixtureTree (.pint 9)
        = DPTBase.transcoder_by_dpt fixtureTree 9 none :=
  parse_string_spec.2.2.2.2 fixtureTree by_value_type_fixture.1 by_value_type_fixture.2

/-! ## Claim C9 (corrected) -/

/-- A `from_dict` implementation that raises `KeyError`, as a Python
implementation may on a missing mapping key. -/
def keyErrorFromDict : Unit → Except PyExc Unit :=
  fun _ => .error { kind := .keyError, msg := "missing key" }

/-- A `from_dict` implementation that raises `ValueError`. -/
def valueErrorFromDict : Unit → Except PyExc Unit :=
  fun _ => .error { kind := .valueError, msg := "invalid literal" }

/-- A lower-level `_to_knx` that always succeeds. -/
def okToKnxRaw : Unit → Except PyExc (List Nat) := fun _ => .ok [0]

/-- Counterexample to claim C9 as stated: a `KeyError` raised during the
from-mapping conversion is not in the `except (ValueError, TypeError,
AttributeError, ConversionError)` tuple, so `DPTComplex.to_knx` propagates
it unchanged instead of re-raising the single uniform `ConversionError`. -/
theorem complex_to_knx_counterexample :
    DPTComplex.to_knx "DPTColorXYY" keyErrorFromDict okToKnxRaw (.inr ())
      = .error (.unhandled { kind := .keyError, msg := "missing key" }) := rfl

/-- Claim C9 amended: a failure of one of the caught classes (ValueError,
TypeError, AttributeError, ConversionError) raised during the from-mapping
conversion or the subsequent lower-level encode is re-raised as one uniform
`ConversionError` carrying the original failure's message and the offending
input value; an exception of any other class propagates unchanged; a
successful encode passes through. -/
theorem complex_to_knx_spec {α β : Type} (clsName : String)
    (from_dict : β → Except PyExc α) (toKnxRaw : α → Except PyExc (List Nat))
    (value : α ⊕ β) :
    (∀ r : List Nat, complexAttempt from_dict toKnxRaw value = .ok r →
      DPTComplex.to_knx clsName from_dict toKnxRaw value = .ok r)
    ∧ (∀ e : PyExc, complexAttempt from_dict toKnxRaw value = .error e →
      caughtByComplexToKnx e.kind = true →
      DPTComplex.to_knx clsName from_dict toKnxRaw value =
        .error (.wrapped ("Could not serialize " ++ clsName ++ ": " ++ e.msg) value))
    ∧ (∀ e : PyExc, complexAttempt from_dict toKnxRaw value = .error e →
      caughtByComplexToKnx e.kind = false →
      DPTComplex.to_knx clsName from_dict toKnxRaw value = .error (.unhandled e)) := by
  refine ⟨?_, ?_, ?_⟩
  · intro r h
    simp [DPTComplex.to_knx, h]
  · intro e h hc
    simp [DPTComplex.to_knx, h, hc]
  · intro e h hc
    simp [DPTComplex.to_knx, h, hc]

/-- Witness for C9 (amended): a `ValueError` from the conversion is
re-raised as the uniform `ConversionError` carrying its message and the
input. -/
theorem complex_to_knx_spec_witness :
    DPTComplex.to_knx "DPTColorXYY" valueErrorFromDict okToKnxRaw (.inr ())
      = .error (.wrapped "Could not serialize DPTColorXYY: invalid literal"
          (.inr ())) :=
  (complex_to_knx_spec "DPTColorXYY" valueErrorFromDict okToKnxRaw
    (.inr ())).2.1 { kind := .valueError, msg := "invalid literal" } rfl rfl
